import Mathlib

/-!
Verification of the tool-augmented generation orchestrator of the
course-materials RAG chatbot (backend/ai_generator.py) and of the tool
abstraction layer it depends on.

The orchestrator `AIGenerator.generate_response` is embedded as a pure
function: the Anthropic client is modelled as a function from the call
index to the response the model gives on that call (the orchestrator is
deterministic, so along any one execution the i-th request is determined
by the earlier responses, and a call-indexed oracle captures every model
behaviour), and the tool manager's `execute_tool` as a function returning
`Except` (a raised exception becomes `Except.error`).  The embedding
returns, besides the answer string, the full trace of model calls made —
the message list, system text, and whether tools were offered on each —
so that call-counting and message-shape properties can be stated.
-/

namespace RagChatbot

/-- Roles of conversation turns. -/
inductive Role where
  | user
  | assistant
deriving DecidableEq, Repr

/-- A content block of a model response: a text block (which has a `text`
attribute) or a `tool_use` block carrying a tool name, a call id and the
argument mapping. -/
inductive Block where
  | text (t : String)
  | toolUse (name : String) (id : String) (input : List (String × String))
deriving DecidableEq, Repr

/-- A `tool_result` entry as built by `_execute_tools`.  Successful results
carry no `is_error` key in the Python dict, which we model as
`is_error = false`. -/
structure ToolResult where
  tool_use_id : String
  content : String
  is_error : Bool
deriving DecidableEq, Repr

/-- Content of one message of the `messages` list: the initial query string,
an assistant reply's block list, or a bundle of tool results. -/
inductive MsgContent where
  | text (s : String)
  | blocks (bs : List Block)
  | toolResults (rs : List ToolResult)
deriving DecidableEq, Repr

/-- One turn of the `messages` list sent to the model. -/
structure Message where
  role : Role
  content : MsgContent
deriving DecidableEq, Repr

/-- A model response: `stop_reason` and the content block list. -/
structure Response where
  stop_reason : String
  content : List Block
deriving DecidableEq, Repr

/-- A tool specification as passed in the `tools` parameter (only the
fields the orchestrator never inspects; it forwards the list opaquely). -/
structure ToolSpec where
  name : String
  description : String
deriving DecidableEq, Repr

/-- The capability `tool_manager.execute_tool`: tool name and keyword
arguments to either a result string or a raised exception's message. -/
def ExecTool : Type := String → List (String × String) → Except String String

/-- The record of one request made to the model: the `messages` list, the
`system` text, and whether the `tools`/`tool_choice` keys were present. -/
structure ApiCall where
  messages : List Message
  system : String
  toolsOffered : Bool
deriving DecidableEq, Repr

/-- Result of a run of `generate_response`: the returned answer, the trace
of model calls in order, the number of completed tool-dispatch rounds, and
the total number of individual tool dispatches (`execute_tool` calls). -/
structure GenResult where
  answer : String
  calls : List ApiCall
  toolRounds : Nat
  dispatchCount : Nat
deriving DecidableEq, Repr

/-- `MAX_TOOL_ROUNDS = 2` (ai_generator.py line 5). -/
def MAX_TOOL_ROUNDS : Nat := 2

/-- The static system prompt (ai_generator.py lines 12-56), verbatim. -/
def SYSTEM_PROMPT : String := " You are an AI assistant specialized in course materials and educational content with access to tools for course information.

Available Tools:
1. **search_course_content**: Search within course content for specific topics or detailed information
2. **get_course_outline**: Get course structure - title, course link, and complete lesson list with numbers and titles

Tool Selection Rules (IMPORTANT - follow these strictly):
- Use **get_course_outline** when the user asks about:
  - \"what lessons\" or \"how many lessons\" in a course
  - \"outline\" or \"structure\" of a course
  - \"syllabus\" or \"table of contents\"
  - \"what does the course cover\" or \"course overview\"
  - listing all topics/lessons in a course
- Use **search_course_content** when the user asks about:
  - specific topics or concepts (e.g., \"what is MCP architecture\")
  - detailed explanations from lesson content
  - specific information within lessons

Tool Usage:
- You may use tools sequentially if needed (up to 2 rounds)
- After each tool result, evaluate if you have enough information to answer
- If first search is insufficient, refine your search or use a different tool
- Synthesize results from all tool calls into a coherent response

When to use multiple tool calls:
- Question spans multiple courses or lessons
- Need both course outline AND content search
- First search returned partial results that need refinement

Response Protocol for Outline Queries:
- Always include the course title and course link
- List all lessons with their numbers and titles
- Present the information in a clear, organized format

Response Protocol:
- **General knowledge questions**: Answer using existing knowledge without searching
- **Course-specific questions**: Use appropriate tool first, then answer
- **No meta-commentary**: Provide direct answers only â€” no reasoning process or tool explanations

All responses must be:
1. **Brief, Concise and focused** - Get to the point quickly
2. **Educational** - Maintain instructional value
3. **Clear** - Use accessible language
4. **Example-supported** - Include relevant examples when they aid understanding
"

/-- Whether a block would satisfy Python's `hasattr(block, \x22text\x22)`:
text blocks have a `text` attribute, `tool_use` blocks do not. -/
def isTextBlock : Block → Bool
  | Block.text _ => true
  | Block.toolUse _ _ _ => false

/-- The scan of `_extract_text`: the text of the first block having a
`text` attribute, if any. -/
def firstTextBlock : List Block → Option String
  | [] => none
  | Block.text t :: _ => some t
  | Block.toolUse _ _ _ :: bs => firstTextBlock bs

/-- `AIGenerator._extract_text` (lines 183-197): return the first text
block's text; if the content is empty or no block has a `text` attribute,
return the fixed fallback string. -/
def extractText (resp : Response) : String :=
  match firstTextBlock resp.content with
  | some t => t
  | none => "Unable to generate a response."

/-- One iteration of the dispatch loop body of `_execute_tools` (lines
161-179): run the tool, converting a raised exception into an
error-flagged tool result with a descriptive message. -/
def runTool (tm : ExecTool) (name id : String)
    (input : List (String × String)) : ToolResult × Bool :=
  match tm name input with
  | Except.ok r => (⟨id, r, false⟩, false)
  | Except.error e => (⟨id, "Error executing tool: " ++ e, true⟩, true)

/-- `AIGenerator._execute_tools` (lines 145-181): execute every `tool_use`
block of the response content in order, collecting one tool result per
invocation and an error flag. -/
def executeTools (bs : List Block) (tm : ExecTool) : List ToolResult × Bool :=
  match bs with
  | [] => ([], false)
  | Block.text _ :: rest => executeTools rest tm
  | Block.toolUse name id input :: rest =>
      let first := runTool tm name id input
      let later := executeTools rest tm
      (first.1 :: later.1, first.2 || later.2)

/-- Number of `tool_use` blocks in a content list (the number of
`execute_tool` dispatches the round performs). -/
def countToolUses (bs : List Block) : Nat :=
  (bs.filter (fun b => !isTextBlock b)).length

/-- The two turns appended to `messages` after a completed tool round
(lines 127-130): the assistant's reply, then one user turn bundling the
round's tool results. -/
def appendRound (ms : List Message) (bs : List Block)
    (rs : List ToolResult) : List Message :=
  ms ++ [⟨Role.assistant, MsgContent.blocks bs⟩,
         ⟨Role.user, MsgContent.toolResults rs⟩]

/-- The main loop of `generate_response` (lines 96-143), with the fuel
argument `remaining = MAX_TOOL_ROUNDS - round_count`.  At fuel 0 the
`while` guard fails and the forced final call without tools is made
(lines 135-143); otherwise one loop iteration runs: a model call with
tools offered iff the `tools` argument was truthy, early return on a
non-`tool_use` stop reason or a missing tool manager, else a dispatch
round and recursion. -/
def genLoop (client : Nat → Response) (sys : String) (hasTools : Bool)
    (toolManager : Option ExecTool) :
    Nat → List Message → Nat → GenResult
  | callIdx, messages, 0 =>
      let resp := client callIdx
      { answer := extractText resp
        calls := [⟨messages, sys, false⟩]
        toolRounds := 0
        dispatchCount := 0 }
  | callIdx, messages, remaining + 1 =>
      let resp := client callIdx
      if resp.stop_reason ≠ "tool_use" then
        { answer := extractText resp
          calls := [⟨messages, sys, hasTools⟩]
          toolRounds := 0
          dispatchCount := 0 }
      else
        match toolManager with
        | none =>
            { answer := extractText resp
              calls := [⟨messages, sys, hasTools⟩]
              toolRounds := 0
              dispatchCount := 0 }
        | some tm =>
            let results := executeTools resp.content tm
            let rest := genLoop client sys hasTools toolManager
              (callIdx + 1) (appendRound messages resp.content results.1)
              remaining
            { answer := rest.answer
              calls := ⟨messages, sys, hasTools⟩ :: rest.calls
              toolRounds := rest.toolRounds + 1
              dispatchCount := rest.dispatchCount + countToolUses resp.content }

/-- Python truthiness of the `tools` argument (`if tools:` line 108):
`None` and the empty list are falsy. -/
def toolsTruthy (tools : Option (List ToolSpec)) : Bool :=
  match tools with
  | none => false
  | some ts => !ts.isEmpty

/-- The system content built on lines 86-90: `if conversation_history:`
is Python truthiness, so both `None` and the empty string yield the bare
system prompt. -/
def systemContentOf (hist : Option String) : String :=
  match hist with
  | none => SYSTEM_PROMPT
  | some h =>
      if h = "" then SYSTEM_PROMPT
      else SYSTEM_PROMPT ++ "\n\nPrevious conversation:\n" ++ h

/-- `AIGenerator.generate_response` (lines 65-143).  The message list is
seeded with one user turn containing the query and the loop runs with
fuel `MAX_TOOL_ROUNDS`. -/
def generate_response (query : String) (conversationHistory : Option String)
    (tools : Option (List ToolSpec)) (toolManager : Option ExecTool)
    (client : Nat → Response) : GenResult :=
  genLoop client (systemContentOf conversationHistory) (toolsTruthy tools)
    toolManager 0 [⟨Role.user, MsgContent.text query⟩] MAX_TOOL_ROUNDS

/-!
The tool abstraction layer.  The file `backend/search_tools.py` (classes
`CourseSearchTool`, `CourseOutlineTool`, `ToolManager`) and the
`SearchResults` container of `backend/vector_store.py` are exercised by
the tests under `backend/tests/` but their implementation is not part of
the sources at hand, so the definitions below are modelled from the spec
(sections 3, 4.2, 4.3 and 6), constrained by the expectations the tests
state about them.
-/

/-- Modelled from the spec: one passage of a retrieval-backend result,
`{text, courseTitle, lessonNumber?}` (spec section 6, retrieval backend
contract; the implementation file vector_store.py is not under the
sources). -/
structure Passage where
  text : String
  courseTitle : String
  lessonNumber : Option Nat
deriving DecidableEq, Repr

/-- Modelled from the spec: a retrieval-backend search result,
`{passages, error?}` (spec section 6; vector_store.py is not under the
sources). -/
structure RetrievalResult where
  passages : List Passage
  error : Option String
deriving DecidableEq, Repr

/-- Modelled from the spec: the retrieval backend interface the
content-search tool consumes (spec section 6): ranked search plus lesson-
and course-link resolution. -/
structure RetrievalBackend where
  search : String → Option String → Option Nat → RetrievalResult
  resolveLessonLink : String → Nat → Option String
  resolveCourseLink : String → Option String

/-- Modelled from the spec: a Citation, `{display text, optional link}`
(spec section 3). -/
structure Citation where
  text : String
  link : Option String
deriving DecidableEq, Repr

/-- Modelled from the spec: the bracketed passage header
`[<course title> - Lesson <n>]`, omitting the lesson segment when the
passage has no lesson number (spec section 4.3). -/
def passageHeader (p : Passage) : String :=
  match p.lessonNumber with
  | some n => "[" ++ p.courseTitle ++ " - Lesson " ++ toString n ++ "]"
  | none => "[" ++ p.courseTitle ++ "]"

/-- Modelled from the spec: one formatted passage, header followed by the
passage text (spec section 4.3). -/
def formatPassage (p : Passage) : String :=
  passageHeader p ++ "\n" ++ p.text

/-- Modelled from the spec: the citation built for one passage — display
text from the course title and lesson number (the tests expect it without
the brackets: test_search_tools.py line 115), link from the lesson deep
link when the backend resolves one, else the course link (spec section
4.3). -/
def citationOf (backend : RetrievalBackend) (p : Passage) : Citation :=
  match p.lessonNumber with
  | some n =>
      { text := p.courseTitle ++ " - Lesson " ++ toString n
        link :=
          match backend.resolveLessonLink p.courseTitle n with
          | some l => some l
          | none => backend.resolveCourseLink p.courseTitle }
  | none =>
      { text := p.courseTitle
        link := backend.resolveCourseLink p.courseTitle }

/-- Modelled from the spec: the "no content found" message, echoing back
the active course-name and lesson-number filters (spec section 4.3; the
tests expect the text "No relevant content found", test_search_tools.py
line 76). -/
def noContentMessage (courseName : Option String)
    (lessonNumber : Option Nat) : String :=
  "No relevant content found"
    ++ (match courseName with
        | some c => " in course '" ++ c ++ "'"
        | none => "")
    ++ (match lessonNumber with
        | some n => " in lesson " ++ toString n
        | none => "")
    ++ "."

/-- Modelled from the spec: the mutable per-tool citation slot of the
content-search tool (`last_sources` in the tests). -/
structure CourseSearchTool where
  lastSources : List Citation
deriving DecidableEq, Repr

/-- Modelled from the spec: the citations produced by one execution of the
content-search tool — one per returned passage, none on a backend error or
an empty result (spec sections 3 and 4.3). -/
def citationsOfCall (backend : RetrievalBackend) (query : String)
    (courseName : Option String) (lessonNumber : Option Nat) : List Citation :=
  let results := backend.search query courseName lessonNumber
  match results.error with
  | some _ => []
  | none => results.passages.map (citationOf backend)

/-- Modelled from the spec: `CourseSearchTool.execute(query, courseName?,
lessonNumber?)` (spec section 4.3; search_tools.py is not under the
sources).  Backend error: the error message is returned verbatim.  Empty
result set: the "no content found" message echoing the filters.  Non-empty
result set: formatted passages joined by blank lines.  The tool's citation
set is overwritten on every execution: only the latest call's citations
remain (spec section 3). -/
def CourseSearchTool.execute (backend : RetrievalBackend)
    (tool : CourseSearchTool) (query : String) (courseName : Option String)
    (lessonNumber : Option Nat) : String × CourseSearchTool :=
  let results := backend.search query courseName lessonNumber
  let output :=
    match results.error with
    | some e => e
    | none =>
        if results.passages.isEmpty then
          noContentMessage courseName lessonNumber
        else
          String.intercalate "\n\n" (results.passages.map formatPassage)
  (output, { lastSources := citationsOfCall backend query courseName lessonNumber })

/-- Modelled from the spec: a registered tool of the registry, a named
`execute(arguments) → text` capability (spec sections 4.2 and design note
on dynamic dispatch; search_tools.py is not under the sources). -/
structure RegisteredTool where
  name : String
  execute : List (String × String) → String

/-- Modelled from the spec: the Tool Registry (`ToolManager`), holding
named tool instances; dispatch looks the tool up by name (spec section
4.2). -/
structure ToolManager where
  tools : List (String × RegisteredTool)

/-- Modelled from the spec: `ToolManager.execute_tool(name, arguments)`
(spec section 4.2): an absent name is surfaced as a descriptive text
payload — never raised — naming the missing tool (the tests expect the
text to contain "not found", test_search_tools.py line 190); otherwise the
arguments are forwarded to the tool's execute contract and its text output
is returned unchanged. -/
def ToolManager.execute_tool (mgr : ToolManager) (name : String)
    (args : List (String × String)) : String :=
  match mgr.tools.lookup name with
  | none => "Tool '" ++ name ++ "' not found"
  | some t => t.execute args

/-- Modelled from the spec: `latestCitations()` over a registry viewed as
its list of citation-carrying tools in registration order — the
concatenation of each registered tool's current citation set; empty sets
contribute nothing (spec section 4.2). -/
def latestCitations (toolList : List CourseSearchTool) : List Citation :=
  (toolList.map (fun t => t.lastSources)).flatten

/-!
Concrete fixtures, mirroring the mock objects of the test suite
(backend/tests/conftest.py and test_ai_generator.py), used to instantiate
the theorems below at closed inputs.
-/

/-- The tool list offered in the sequential-calling tests. -/
def specsF : List ToolSpec := [⟨"search_course_content", "Search"⟩]

/-- A tool manager whose dispatch always succeeds. -/
def tmOkF : ExecTool := fun _ _ => Except.ok "Tool result content"

/-- A tool manager whose dispatch always raises. -/
def tmErrF : ExecTool := fun _ _ => Except.error "Tool failed"

/-- A reply requesting one tool invocation. -/
def respToolAF : Response :=
  ⟨"tool_use", [Block.toolUse "search_course_content" "tool_1" [("query", "MCP")]]⟩

/-- A reply requesting two tool invocations in the same round. -/
def respTwoToolsF : Response :=
  ⟨"tool_use", [Block.toolUse "search_course_content" "t1" [("query", "a")],
                Block.toolUse "get_course_outline" "t2" [("course_name", "b")]]⟩

/-- A plain text reply. -/
def respTextF : Response :=
  ⟨"end_turn", [Block.text "MCP is a protocol for connecting AI to tools."]⟩

/-- A model that never requests tools. -/
def clientTextF : Nat → Response := fun _ => respTextF

/-- A model that requests one tool on the first reply only. -/
def clientOneF : Nat → Response :=
  fun i => if i < 1 then respToolAF else respTextF

/-- A model whose first two replies request a tool and whose forced final
reply is a text block holding the empty string. -/
def clientCapF : Nat → Response :=
  fun i => if i < 2 then respToolAF else ⟨"end_turn", [Block.text ""]⟩

/-- A model that requests two tools on every reply. -/
def clientTwoToolsF : Nat → Response := fun _ => respTwoToolsF

/-- A retrieval backend whose search finds nothing. -/
def backendEmptyF : RetrievalBackend :=
  ⟨fun _ _ _ => ⟨[], none⟩, fun _ _ => none, fun _ => none⟩

/-- A retrieval backend returning one passage, with resolvable links. -/
def backendOneF : RetrievalBackend :=
  ⟨fun q _ _ => ⟨[⟨"Passage about " ++ q, "MCP: Build Rich-Context AI Apps", some 1⟩], none⟩,
   fun _ _ => some "https://example.com/course/lesson1",
   fun _ => some "https://example.com/course"⟩

/-- A registry with no tools registered. -/
def emptyManagerF : ToolManager := ⟨[]⟩

/-- A fresh content-search tool with no recorded citations. -/
def searchToolF : CourseSearchTool := ⟨[]⟩

/-- Strict user/assistant role alternation starting from a user turn:
the j-th turn is a user turn for even j and an assistant turn for odd j. -/
def rolesAlternate (ms : List Message) : Prop :=
  ∀ (j : Nat) (m : Message), ms[j]? = some m →
    m.role = (if j % 2 = 0 then Role.user else Role.assistant)

/-!
Helper lemmas about `executeTools` and the orchestrator loop.
-/

/-- Every `tool_use` block of the round — and nothing else — yields one
tool result: a fault in one dispatch does not stop the others. -/
theorem executeTools_length (bs : List Block) (tm : ExecTool) :
    (executeTools bs tm).1.length = countToolUses bs := by
  induction bs with
  | nil => simp [executeTools, countToolUses]
  | cons b rest ih =>
    cases b with
    | text t =>
        simpa [executeTools, countToolUses, isTextBlock] using ih
    | toolUse n i inp =>
        simp only [executeTools, countToolUses, isTextBlock,
          List.filter_cons, Bool.not_false, List.length_cons] at ih ⊢
        simpa [countToolUses] using ih

/-- The loop always makes at least one and at most `remaining + 1` model
calls and completes at most `remaining` dispatch rounds. -/
theorem genLoop_bounds (client : Nat → Response) (sys : String)
    (hasTools : Bool) (tmo : Option ExecTool) :
    ∀ (remaining callIdx : Nat) (ms : List Message),
      1 ≤ (genLoop client sys hasTools tmo callIdx ms remaining).calls.length ∧
      (genLoop client sys hasTools tmo callIdx ms remaining).calls.length ≤ remaining + 1 ∧
      (genLoop client sys hasTools tmo callIdx ms remaining).toolRounds ≤ remaining := by
  intro remaining
  induction remaining with
  | zero => intro callIdx ms; simp [genLoop]
  | succ n ih =>
    intro callIdx ms
    by_cases hsr : (client callIdx).stop_reason = "tool_use"
    · cases tmo with
      | none => simp [genLoop, hsr]
      | some tm =>
          have h := ih (callIdx + 1)
            (appendRound ms (client callIdx).content
              (executeTools (client callIdx).content tm).1)
          simp only [genLoop, hsr, ne_eq, not_true_eq_false, if_false]
          simp only [List.length_cons]
          omega
    · simp [genLoop, hsr]

/-- When every reply requests at most one tool, the total dispatch count
is bounded by the number of completed rounds. -/
theorem genLoop_dispatch_le (client : Nat → Response) (sys : String)
    (hasTools : Bool) (tmo : Option ExecTool)
    (hone : ∀ i, countToolUses (client i).content ≤ 1) :
    ∀ (remaining callIdx : Nat) (ms : List Message),
      (genLoop client sys hasTools tmo callIdx ms remaining).dispatchCount ≤
      (genLoop client sys hasTools tmo callIdx ms remaining).toolRounds := by
  intro remaining
  induction remaining with
  | zero => intro callIdx ms; simp [genLoop]
  | succ n ih =>
    intro callIdx ms
    by_cases hsr : (client callIdx).stop_reason = "tool_use"
    · cases tmo with
      | none => simp [genLoop, hsr]
      | some tm =>
          have h := ih (callIdx + 1)
            (appendRound ms (client callIdx).content
              (executeTools (client callIdx).content tm).1)
          have hb := hone callIdx
          simp only [genLoop, hsr, ne_eq, not_true_eq_false, if_false]
          omega
    · simp [genLoop, hsr]

/-- Every model call of a run is made with the same system text. -/
theorem genLoop_system (client : Nat → Response) (sys : String)
    (hasTools : Bool) (tmo : Option ExecTool) :
    ∀ (remaining callIdx : Nat) (ms : List Message) (c : ApiCall),
      c ∈ (genLoop client sys hasTools tmo callIdx ms remaining).calls →
      c.system = sys := by
  intro remaining
  induction remaining with
  | zero => intro callIdx ms c hc; simp [genLoop] at hc; simp [hc]
  | succ n ih =>
    intro callIdx ms c hc
    by_cases hsr : (client callIdx).stop_reason = "tool_use"
    · cases tmo with
      | none => simp [genLoop, hsr] at hc; simp [hc]
      | some tm =>
          simp only [genLoop, hsr, ne_eq, not_true_eq_false, if_false,
            List.mem_cons] at hc
          rcases hc with hc | hc
          · simp [hc]
          · exact ih _ _ c hc
    · simp [genLoop, hsr] at hc; simp [hc]

/-- The message list sent on the i-th model call (0-indexed within the
run) extends the seed list by exactly two turns per completed round. -/
theorem genLoop_msglen (client : Nat → Response) (sys : String)
    (hasTools : Bool) (tmo : Option ExecTool) :
    ∀ (remaining callIdx : Nat) (ms : List Message) (i : Nat) (c : ApiCall),
      (genLoop client sys hasTools tmo callIdx ms remaining).calls[i]? = some c →
      c.messages.length = ms.length + 2 * i := by
  intro remaining
  induction remaining with
  | zero =>
      intro callIdx ms i c hc
      simp only [genLoop] at hc
      match i with
      | 0 => simp at hc; subst hc; simp
      | j + 1 => simp at hc
  | succ n ih =>
    intro callIdx ms i c hc
    by_cases hsr : (client callIdx).stop_reason = "tool_use"
    · cases tmo with
      | none =>
          simp [genLoop, hsr] at hc
          match i with
          | 0 => simp at hc; subst hc; simp
          | j + 1 => simp at hc
      | some tm =>
          simp only [genLoop, hsr, ne_eq, not_true_eq_false, if_false] at hc
          match i with
          | 0 =>
              simp only [List.getElem?_cons_zero, Option.some.injEq] at hc
              subst hc
              simp
          | j + 1 =>
              simp only [List.getElem?_cons_succ] at hc
              have := ih (callIdx + 1)
                (appendRound ms (client callIdx).content
                  (executeTools (client callIdx).content tm).1) j c hc
              simp only [appendRound, List.length_append, List.length_cons,
                List.length_nil] at this
              omega
    · simp [genLoop, hsr] at hc
      match i with
      | 0 => simp at hc; subst hc; simp
      | j + 1 => simp at hc

/-- Any property of the message list preserved by appending one completed
round holds for the message list of every model call of the run. -/
theorem genLoop_pred (client : Nat → Response) (sys : String)
    (hasTools : Bool) (tmo : Option ExecTool) (P : List Message → Prop)
    (hstep : ∀ ms bs rs, P ms → P (appendRound ms bs rs)) :
    ∀ (remaining callIdx : Nat) (ms : List Message), P ms →
      ∀ c ∈ (genLoop client sys hasTools tmo callIdx ms remaining).calls,
        P c.messages := by
  intro remaining
  induction remaining with
  | zero => intro callIdx ms hP c hc; simp [genLoop] at hc; simp [hc, hP]
  | succ n ih =>
    intro callIdx ms hP c hc
    by_cases hsr : (client callIdx).stop_reason = "tool_use"
    · cases tmo with
      | none => simp [genLoop, hsr] at hc; simp [hc, hP]
      | some tm =>
          simp only [genLoop, hsr, ne_eq, not_true_eq_false, if_false,
            List.mem_cons] at hc
          rcases hc with hc | hc
          · simp [hc, hP]
          · exact ih _ _ (hstep _ _ _ hP) c hc
    · simp [genLoop, hsr] at hc; simp [hc, hP]

/-- When no block of the content has a `text` attribute, the scan of
`_extract_text` finds nothing. -/
theorem firstTextBlock_eq_none (bs : List Block)
    (h : ∀ b ∈ bs, isTextBlock b = false) : firstTextBlock bs = none := by
  induction bs with
  | nil => rfl
  | cons b rest ih =>
      cases b with
      | text t =>
          have := h (Block.text t) (List.mem_cons_self _ _)
          simp [isTextBlock] at this
      | toolUse n i inp => exact ih (fun b hb => h b (by simp [hb]))

/-- When the first k blocks have no `text` attribute and the next is a
text block, `_extract_text` returns that block's text. -/
theorem firstTextBlock_append (pre : List Block) (t : String)
    (post : List Block) (h : ∀ b ∈ pre, isTextBlock b = false) :
    firstTextBlock (pre ++ Block.text t :: post) = some t := by
  induction pre with
  | nil => rfl
  | cons b rest ih =>
      cases b with
      | text s =>
          have := h (Block.text s) (List.mem_cons_self _ _)
          simp [isTextBlock] at this
      | toolUse n i inp =>
          simpa [firstTextBlock] using ih (fun b hb => h b (by simp [hb]))

/-- One unfolding of the loop on a `tool_use` reply: the current call is
recorded and the loop recurses on the extended message list. -/
theorem genLoop_calls_cons (client : Nat → Response) (sys : String)
    (hasTools : Bool) (tm : ExecTool) (callIdx : Nat) (ms : List Message)
    (n : Nat) (hsr : (client callIdx).stop_reason = "tool_use") :
    (genLoop client sys hasTools (some tm) callIdx ms (n + 1)).calls =
      ⟨ms, sys, hasTools⟩ :: (genLoop client sys hasTools (some tm) (callIdx + 1)
        (appendRound ms (client callIdx).content
          (executeTools (client callIdx).content tm).1) n).calls := by
  simp [genLoop, hsr]

/-- Claim C1: when the model's replies request tools for the first k rounds
(k ≤ MAX_TOOL_ROUNDS) and — whenever k is below the cap — the (k+1)-st
reply is not a tool request, `generate_response` makes exactly k+1 model
calls, performs exactly k rounds of tool dispatch, and returns the text
extracted from the (k+1)-st reply (for k = 0, the first reply's text is
returned unchanged); with a truthy tools argument, the final model call
omits the tool offer exactly when k = MAX_TOOL_ROUNDS. -/
theorem C1_model_call_and_round_counts (query : String) (hist : Option String)
    (tools : Option (List ToolSpec)) (tm : ExecTool) (client : Nat → Response)
    (k : Nat) (hk : k ≤ MAX_TOOL_ROUNDS) (hT : toolsTruthy tools = true)
    (hrounds : ∀ i, i < k → (client i).stop_reason = "tool_use")
    (hstop : k < MAX_TOOL_ROUNDS → (client k).stop_reason ≠ "tool_use") :
    (generate_response query hist tools (some tm) client).calls.length = k + 1 ∧
    (generate_response query hist tools (some tm) client).toolRounds = k ∧
    (generate_response query hist tools (some tm) client).answer =
      extractText (client k) ∧
    ((generate_response query hist tools (some tm) client).calls.getLast?).map
      ApiCall.toolsOffered = some (decide (k < MAX_TOOL_ROUNDS)) ∧
    (∀ t bs, (client k).content = Block.text t :: bs →
      (generate_response query hist tools (some tm) client).answer = t) := by
  have hk2 : k ≤ 2 := hk
  interval_cases k
  · have hs := hstop (by decide)
    refine ⟨?_, ?_, ?_, ?_, ?_⟩
    · simp [generate_response, genLoop, MAX_TOOL_ROUNDS, hs]
    · simp [generate_response, genLoop, MAX_TOOL_ROUNDS, hs]
    · simp [generate_response, genLoop, MAX_TOOL_ROUNDS, hs]
    · simp [generate_response, genLoop, MAX_TOOL_ROUNDS, hs, hT]
    · intro t bs hct
      simp [generate_response, genLoop, MAX_TOOL_ROUNDS, hs, extractText,
        firstTextBlock, hct]
  · have h0 := hrounds 0 (by decide)
    have hs := hstop (by decide)
    refine ⟨?_, ?_, ?_, ?_, ?_⟩
    · simp [generate_response, genLoop, MAX_TOOL_ROUNDS, h0, hs]
    · simp [generate_response, genLoop, MAX_TOOL_ROUNDS, h0, hs]
    · simp [generate_response, genLoop, MAX_TOOL_ROUNDS, h0, hs]
    · simp [generate_response, genLoop, MAX_TOOL_ROUNDS, h0, hs, hT]
    · intro t bs hct
      simp [generate_response, genLoop, MAX_TOOL_ROUNDS, h0, hs, extractText,
        firstTextBlock, hct]
  · have h0 := hrounds 0 (by decide)
    have h1 := hrounds 1 (by decide)
    refine ⟨?_, ?_, ?_, ?_, ?_⟩
    · simp [generate_response, genLoop, MAX_TOOL_ROUNDS, h0, h1]
    · simp [generate_response, genLoop, MAX_TOOL_ROUNDS, h0, h1]
    · simp [generate_response, genLoop, MAX_TOOL_ROUNDS, h0, h1]
    · simp [generate_response, genLoop, MAX_TOOL_ROUNDS, h0, h1]
    · intro t bs hct
      simp [generate_response, genLoop, MAX_TOOL_ROUNDS, h0, h1, extractText,
        firstTextBlock, hct]

/-- Witness for C1 at k = 1: one tool round, then a text reply. -/
theorem C1_model_call_and_round_counts_witness :
    (1 ≤ MAX_TOOL_ROUNDS ∧ toolsTruthy (some specsF) = true ∧
      (clientOneF 0).stop_reason = "tool_use" ∧
      (clientOneF 1).stop_reason ≠ "tool_use") ∧
    (generate_response "What is MCP?" none (some specsF) (some tmOkF)
      clientOneF).calls.length = 1 + 1 ∧
    (generate_response "What is MCP?" none (some specsF) (some tmOkF)
      clientOneF).toolRounds = 1 ∧
    (generate_response "What is MCP?" none (some specsF) (some tmOkF)
      clientOneF).answer = extractText (clientOneF 1) ∧
    ((generate_response "What is MCP?" none (some specsF) (some tmOkF)
      clientOneF).calls.getLast?).map ApiCall.toolsOffered =
      some (decide (1 < MAX_TOOL_ROUNDS)) := by
  have h := C1_model_call_and_round_counts "What is MCP?" none (some specsF)
    tmOkF clientOneF 1 (by decide) (by decide)
    (by intro i hi
        have hi0 : i = 0 := by omega
        subst hi0
        rfl)
    (by intro _h; decide)
  exact ⟨⟨by decide, by decide, by decide, by decide⟩, h.1, h.2.1, h.2.2.1,
    h.2.2.2.1⟩

/-- Claim C2 counterexample: a model that requests two tools on every
reply drives four individual tool dispatches across the two permitted
rounds, so the total dispatch count exceeds MAX_TOOL_ROUNDS = 2 (the
number of dispatch *rounds* is what the cap bounds). -/
theorem C2_dispatch_count_counterexample :
    (clientTwoToolsF 0).stop_reason = "tool_use" ∧
    (generate_response "q" none (some specsF) (some tmOkF)
      clientTwoToolsF).dispatchCount = 4 ∧
    MAX_TOOL_ROUNDS = 2 ∧
    ¬((generate_response "q" none (some specsF) (some tmOkF)
      clientTwoToolsF).dispatchCount ≤ MAX_TOOL_ROUNDS) := by
  decide

/-- Claim C2 (amended): for every model behaviour `generate_response`
terminates with a final answer after at least one and at most
MAX_TOOL_ROUNDS + 1 model calls, and the number of tool-dispatch rounds
never exceeds MAX_TOOL_ROUNDS; the total count of individual dispatches is
likewise capped whenever each reply requests at most one tool (a reply
carrying several invocations can push the total above the round cap). -/
theorem C2_round_cap_and_termination (query : String) (hist : Option String)
    (tools : Option (List ToolSpec)) (tmo : Option ExecTool)
    (client : Nat → Response) :
    1 ≤ (generate_response query hist tools tmo client).calls.length ∧
    (generate_response query hist tools tmo client).calls.length ≤
      MAX_TOOL_ROUNDS + 1 ∧
    (generate_response query hist tools tmo client).toolRounds ≤
      MAX_TOOL_ROUNDS ∧
    ((∀ i, countToolUses (client i).content ≤ 1) →
      (generate_response query hist tools tmo client).dispatchCount ≤
        MAX_TOOL_ROUNDS) := by
  have hb := genLoop_bounds client (systemContentOf hist) (toolsTruthy tools)
    tmo MAX_TOOL_ROUNDS 0 [⟨Role.user, MsgContent.text query⟩]
  refine ⟨hb.1, hb.2.1, hb.2.2, ?_⟩
  intro hone
  have hd := genLoop_dispatch_le client (systemContentOf hist)
    (toolsTruthy tools) tmo hone MAX_TOOL_ROUNDS 0
    [⟨Role.user, MsgContent.text query⟩]
  exact le_trans hd hb.2.2

/-- Witness for C2 (amended) with the never-tool model. -/
theorem C2_round_cap_and_termination_witness :
    (∀ i, countToolUses (clientTextF i).content ≤ 1) ∧
    1 ≤ (generate_response "q" none none none clientTextF).calls.length ∧
    (generate_response "q" none none none clientTextF).calls.length ≤
      MAX_TOOL_ROUNDS + 1 ∧
    (generate_response "q" none none none clientTextF).toolRounds ≤
      MAX_TOOL_ROUNDS ∧
    (generate_response "q" none none none clientTextF).dispatchCount ≤
      MAX_TOOL_ROUNDS := by
  have hone : ∀ i, countToolUses (clientTextF i).content ≤ 1 := by
    intro i
    have h1 : countToolUses respTextF.content ≤ 1 := by decide
    exact h1
  have h := C2_round_cap_and_termination "q" none none none clientTextF
  exact ⟨hone, h.1, h.2.1, h.2.2.1, h.2.2.2 hone⟩

/-- Claim C3 counterexample: with the round cap reached without a
text-only reply, a forced final reply whose text block holds the empty
string is returned as the empty string — the fixed fallback string is not
substituted for an empty text. -/
theorem C3_empty_text_counterexample :
    (clientCapF 0).stop_reason = "tool_use" ∧
    (clientCapF 1).stop_reason = "tool_use" ∧
    (clientCapF MAX_TOOL_ROUNDS).content = [Block.text ""] ∧
    (generate_response "q" none (some specsF) (some tmOkF) clientCapF).answer
      = "" ∧
    "" ≠ "Unable to generate a response." := by
  decide

/-- Claim C3 (amended): when the round cap is reached without a text-only
reply, exactly one additional model request is issued — with the
accumulated conversation state and with no tools offered — and that
reply's extracted text is returned unconditionally; the fixed fallback
string is substituted only when the reply carries no text block at all (a
present-but-empty text is returned as the empty string). -/
theorem C3_forced_final_call (query : String) (hist : Option String)
    (tools : Option (List ToolSpec)) (tm : ExecTool) (client : Nat → Response)
    (hT : toolsTruthy tools = true)
    (h0 : (client 0).stop_reason = "tool_use")
    (h1 : (client 1).stop_reason = "tool_use") :
    (generate_response query hist tools (some tm) client).calls.length =
      MAX_TOOL_ROUNDS + 1 ∧
    (generate_response query hist tools (some tm) client).calls.getLast? =
      some ⟨appendRound
              (appendRound [⟨Role.user, MsgContent.text query⟩]
                (client 0).content (executeTools (client 0).content tm).1)
              (client 1).content (executeTools (client 1).content tm).1,
            systemContentOf hist, false⟩ ∧
    (generate_response query hist tools (some tm) client).answer =
      extractText (client MAX_TOOL_ROUNDS) ∧
    ((∀ b ∈ (client MAX_TOOL_ROUNDS).content, isTextBlock b = false) →
      (generate_response query hist tools (some tm) client).answer =
        "Unable to generate a response.") := by
  refine ⟨?_, ?_, ?_, ?_⟩
  · simp [generate_response, genLoop, MAX_TOOL_ROUNDS, h0, h1]
  · simp [generate_response, genLoop, MAX_TOOL_ROUNDS, h0, h1]
  · simp [generate_response, genLoop, MAX_TOOL_ROUNDS, h0, h1]
  · intro hnb
    have hnone := firstTextBlock_eq_none _ hnb
    simp only [MAX_TOOL_ROUNDS] at hnone
    simp [generate_response, genLoop, MAX_TOOL_ROUNDS, h0, h1, extractText,
      hnone]

/-- Witness for C3 (amended): a model that keeps requesting tools even on
the forced final call, whose reply then has no text block. -/
theorem C3_forced_final_call_witness :
    (toolsTruthy (some specsF) = true ∧
      (clientTwoToolsF 0).stop_reason = "tool_use" ∧
      (clientTwoToolsF 1).stop_reason = "tool_use" ∧
      (∀ b ∈ (clientTwoToolsF MAX_TOOL_ROUNDS).content,
        isTextBlock b = false)) ∧
    (generate_response "q" none (some specsF) (some tmOkF)
      clientTwoToolsF).calls.length = MAX_TOOL_ROUNDS + 1 ∧
    (generate_response "q" none (some specsF) (some tmOkF)
      clientTwoToolsF).answer = "Unable to generate a response." := by
  refine ⟨⟨by decide, by decide, by decide, by decide⟩, ?_, ?_⟩
  · exact (C3_forced_final_call "q" none (some specsF) tmOkF clientTwoToolsF
      (by decide) (by decide) (by decide)).1
  · exact (C3_forced_final_call "q" none (some specsF) tmOkF clientTwoToolsF
      (by decide) (by decide) (by decide)).2.2.2 (by decide)

/-- Claim C4: a dispatch that raises is contained at the dispatch
boundary: the round's result list carries an error-flagged ToolResult for
that call identifier with a descriptive message, every other invocation of
the round is still executed (one result per `tool_use` block), the error
flag is reported, and the orchestrator still proceeds past the round to a
final answer (at least a second model call is made). -/
theorem C4_tool_fault_contained (bs : List Block) (tm : ExecTool)
    (name id : String) (input : List (String × String)) (e : String)
    (hmem : Block.toolUse name id input ∈ bs)
    (herr : tm name input = Except.error e) :
    (⟨id, "Error executing tool: " ++ e, true⟩ : ToolResult) ∈
      (executeTools bs tm).1 ∧
    (executeTools bs tm).2 = true ∧
    (executeTools bs tm).1.length = countToolUses bs ∧
    (∀ (query : String) (hist : Option String)
       (tools : Option (List ToolSpec)) (client : Nat → Response),
       (client 0).stop_reason = "tool_use" →
       2 ≤ (generate_response query hist tools (some tm) client).calls.length) := by
  have hkey : (⟨id, "Error executing tool: " ++ e, true⟩ : ToolResult) ∈
      (executeTools bs tm).1 ∧ (executeTools bs tm).2 = true := by
    induction hmem with
    | head rest => simp [executeTools, runTool, herr]
    | tail b hmemTail ih =>
        cases b with
        | text t => simpa [executeTools] using ih
        | toolUse n i inp =>
            refine ⟨?_, ?_⟩
            · simp [executeTools, ih.1]
            · simp [executeTools, ih.2]
  refine ⟨hkey.1, hkey.2, executeTools_length bs tm, ?_⟩
  intro query hist tools client hsr
  have hb := genLoop_bounds client (systemContentOf hist) (toolsTruthy tools)
    (some tm) 1 1 (appendRound [⟨Role.user, MsgContent.text query⟩]
      (client 0).content (executeTools (client 0).content tm).1)
  have hcons := genLoop_calls_cons client (systemContentOf hist)
    (toolsTruthy tools) tm 0 [⟨Role.user, MsgContent.text query⟩] 1 hsr
  have hlen : (generate_response query hist tools (some tm) client).calls.length
      = (genLoop client (systemContentOf hist) (toolsTruthy tools) (some tm) 1
          (appendRound [⟨Role.user, MsgContent.text query⟩] (client 0).content
            (executeTools (client 0).content tm).1) 1).calls.length + 1 := by
    simp only [generate_response, MAX_TOOL_ROUNDS]
    rw [show (2 : Nat) = 1 + 1 from rfl, hcons]
    simp
  omega

/-- Witness for C4: two invocations in one round against an
always-raising tool manager; both are executed and flagged, and the run
still makes a second model call. -/
theorem C4_tool_fault_contained_witness :
    (Block.toolUse "search_course_content" "t1" [("query", "a")] ∈
        respTwoToolsF.content ∧
      tmErrF "search_course_content" [("query", "a")] =
        Except.error "Tool failed" ∧
      (clientTwoToolsF 0).stop_reason = "tool_use") ∧
    (⟨"t1", "Error executing tool: " ++ "Tool failed", true⟩ : ToolResult) ∈
      (executeTools respTwoToolsF.content tmErrF).1 ∧
    (executeTools respTwoToolsF.content tmErrF).2 = true ∧
    (executeTools respTwoToolsF.content tmErrF).1.length =
      countToolUses respTwoToolsF.content ∧
    2 ≤ (generate_response "q" none (some specsF) (some tmErrF)
      clientTwoToolsF).calls.length := by
  have h := C4_tool_fault_contained respTwoToolsF.content tmErrF
    "search_course_content" "t1" [("query", "a")] "Tool failed"
    (by decide) rfl
  exact ⟨⟨by decide, rfl, by decide⟩, h.1, h.2.1, h.2.2.1,
    h.2.2.2 "q" none (some specsF) clientTwoToolsF (by decide)⟩

/-- Claim C5: each execution of the content-search tool overwrites (never
appends to) the citation slot: after two consecutive executions the
recorded citations are exactly those produced by the second call alone —
the state after the second call does not depend on the first call at all —
and a single-tool registry's `latestCitations()` shows only the second
call's citations. -/
theorem C5_citation_replacement (backend : RetrievalBackend)
    (t0 : CourseSearchTool) (q1 q2 : String) (c1 c2 : Option String)
    (l1 l2 : Option Nat) :
    ((CourseSearchTool.execute backend
        ((CourseSearchTool.execute backend t0 q1 c1 l1).2)
        q2 c2 l2).2).lastSources = citationsOfCall backend q2 c2 l2 ∧
    (CourseSearchTool.execute backend
        ((CourseSearchTool.execute backend t0 q1 c1 l1).2) q2 c2 l2).2 =
      (CourseSearchTool.execute backend t0 q2 c2 l2).2 ∧
    latestCitations [(CourseSearchTool.execute backend
        ((CourseSearchTool.execute backend t0 q1 c1 l1).2) q2 c2 l2).2] =
      citationsOfCall backend q2 c2 l2 := by
  refine ⟨rfl, rfl, ?_⟩
  simp [latestCitations, CourseSearchTool.execute]

/-- Claim C6: dispatching a tool name absent from the registry returns a
descriptive text payload naming the missing tool and containing "not
found" — the dispatch is a total function, so no fault is ever raised. -/
theorem C6_unknown_tool_dispatch (mgr : ToolManager) (name : String)
    (args : List (String × String))
    (h : mgr.tools.lookup name = none) :
    ToolManager.execute_tool mgr name args =
      "Tool '" ++ name ++ "' not found" ∧
    (∃ pre post, ToolManager.execute_tool mgr name args =
      pre ++ "not found" ++ post) := by
  have he : ToolManager.execute_tool mgr name args =
      "Tool '" ++ name ++ "' not found" := by
    simp [ToolManager.execute_tool, h]
  refine ⟨he, ⟨"Tool '" ++ name ++ "' ", "", ?_⟩⟩
  rw [he, show ("' not found" : String) = "' " ++ "not found" from rfl]
  simp [String.append_assoc]

/-- Witness for C6: an empty registry and the name used by the tests. -/
theorem C6_unknown_tool_dispatch_witness :
    (emptyManagerF.tools.lookup "nonexistent_tool" = none) ∧
    ToolManager.execute_tool emptyManagerF "nonexistent_tool"
      [("query", "test")] = "Tool '" ++ "nonexistent_tool" ++ "' not found" ∧
    (∃ pre post, ToolManager.execute_tool emptyManagerF "nonexistent_tool"
      [("query", "test")] = pre ++ "not found" ++ post) := by
  have h := C6_unknown_tool_dispatch emptyManagerF "nonexistent_tool"
    [("query", "test")] rfl
  exact ⟨rfl, h.1, h.2⟩

/-- Claim C7: a content-search execution whose backend result set is empty
(and error-free) returns the human-readable "no content found" message,
which contains the course-name filter when one was supplied. -/
theorem C7_no_content_message (backend : RetrievalBackend)
    (tool : CourseSearchTool) (q c : String) (l : Option Nat)
    (herr : (backend.search q (some c) l).error = none)
    (hempty : (backend.search q (some c) l).passages = []) :
    (CourseSearchTool.execute backend tool q (some c) l).1 =
      noContentMessage (some c) l ∧
    (∃ pre post, (CourseSearchTool.execute backend tool q (some c) l).1 =
      pre ++ "No relevant content found" ++ post) ∧
    (∃ pre post, (CourseSearchTool.execute backend tool q (some c) l).1 =
      pre ++ c ++ post) := by
  have hout : (CourseSearchTool.execute backend tool q (some c) l).1 =
      noContentMessage (some c) l := by
    simp [CourseSearchTool.execute, herr, hempty]
  refine ⟨hout, ⟨"", (" in course '" ++ c ++ "'")
      ++ (match l with
          | some n => " in lesson " ++ toString n
          | none => "") ++ ".", ?_⟩,
    ⟨"No relevant content found" ++ " in course '", "'"
      ++ (match l with
          | some n => " in lesson " ++ toString n
          | none => "") ++ ".", ?_⟩⟩
  · rw [hout]
    cases l <;>
      simp only [noContentMessage, String.append_assoc, String.empty_append,
        String.append_empty]
  · rw [hout]
    cases l <;>
      simp only [noContentMessage, String.append_assoc, String.empty_append,
        String.append_empty]

/-- Witness for C7: the empty backend with the filters of the test. -/
theorem C7_no_content_message_witness :
    ((backendEmptyF.search "nonexistent" (some "Test Course") none).error
        = none ∧
      (backendEmptyF.search "nonexistent" (some "Test Course") none).passages
        = []) ∧
    (CourseSearchTool.execute backendEmptyF searchToolF "nonexistent"
      (some "Test Course") none).1 = noContentMessage (some "Test Course")
        none ∧
    (∃ pre post, (CourseSearchTool.execute backendEmptyF searchToolF
      "nonexistent" (some "Test Course") none).1 =
        pre ++ "No relevant content found" ++ post) ∧
    (∃ pre post, (CourseSearchTool.execute backendEmptyF searchToolF
      "nonexistent" (some "Test Course") none).1 =
        pre ++ "Test Course" ++ post) := by
  have h := C7_no_content_message backendEmptyF searchToolF "nonexistent"
    "Test Course" none rfl rfl
  exact ⟨⟨rfl, rfl⟩, h.1, h.2.1, h.2.2⟩

/-- Claim C8: `_extract_text` returns the text of the first block having a
`text` attribute and discards every later block; when no block has one —
including a tool-use reply returned directly because no tool manager was
supplied — the fixed string "Unable to generate a response." is returned. -/
theorem C8_extract_first_text (resp : Response) :
    (∀ pre t post, resp.content = pre ++ Block.text t :: post →
      (∀ b ∈ pre, isTextBlock b = false) → extractText resp = t) ∧
    ((∀ b ∈ resp.content, isTextBlock b = false) →
      extractText resp = "Unable to generate a response.") ∧
    (∀ (query : String) (hist : Option String)
       (tools : Option (List ToolSpec)) (client : Nat → Response),
       client 0 = resp →
       (generate_response query hist tools none client).answer =
         extractText resp) := by
  refine ⟨?_, ?_, ?_⟩
  · intro pre t post hcontent hpre
    simp [extractText, hcontent, firstTextBlock_append pre t post hpre]
  · intro hnb
    simp [extractText, firstTextBlock_eq_none _ hnb]
  · intro query hist tools client hc
    by_cases hsr : (client 0).stop_reason = "tool_use"
    · simp [generate_response, genLoop, MAX_TOOL_ROUNDS, hsr, hc]
    · simp [generate_response, genLoop, MAX_TOOL_ROUNDS, hsr, hc]

/-- Witness for C8: a reply whose first block is a tool invocation and
whose text blocks say "A" then "B" yields "A"; an all-tool-use reply
yields the fallback, also as the answer of a run without a tool manager. -/
theorem C8_extract_first_text_witness :
    extractText ⟨"end_turn", [Block.toolUse "search_course_content" "t0" [],
      Block.text "A", Block.text "B"]⟩ = "A" ∧
    extractText respTwoToolsF = "Unable to generate a response." ∧
    (generate_response "q" none (some specsF) none clientTwoToolsF).answer =
      extractText respTwoToolsF := by
  refine ⟨?_, ?_, ?_⟩
  · exact (C8_extract_first_text ⟨"end_turn",
      [Block.toolUse "search_course_content" "t0" [], Block.text "A",
        Block.text "B"]⟩).1
      [Block.toolUse "search_course_content" "t0" []] "A" [Block.text "B"]
      rfl (by decide)
  · exact (C8_extract_first_text respTwoToolsF).2.1 (by decide)
  · exact (C8_extract_first_text respTwoToolsF).2.2 "q" none (some specsF)
      clientTwoToolsF rfl

/-- A singleton user turn satisfies the alternation invariant. -/
theorem rolesAlternate_singleton (m : Message) (hm : m.role = Role.user) :
    rolesAlternate [m] := by
  intro j x hx
  match j with
  | 0 =>
      simp only [List.getElem?_cons_zero, Option.some.injEq] at hx
      subst hx
      simpa using hm
  | j + 1 => simp at hx

/-- Appending one assistant turn and one user turn to an odd-length
alternating list keeps the alternation. -/
theorem rolesAlternate_appendRound (ms : List Message) (bs : List Block)
    (rs : List ToolResult) (h : rolesAlternate ms)
    (hlen : ms.length % 2 = 1) :
    rolesAlternate (appendRound ms bs rs) := by
  intro j m hm
  rw [appendRound, List.getElem?_append] at hm
  by_cases hj : j < ms.length
  · rw [if_pos hj] at hm
    exact h j m hm
  · rw [if_neg hj] at hm
    rcases hd : j - ms.length with _ | d
    · rw [hd] at hm
      simp only [List.getElem?_cons_zero, Option.some.injEq] at hm
      subst hm
      have hj2 : j % 2 = 1 := by omega
      simp [hj2]
    · rw [hd] at hm
      rcases d with _ | d2
      · simp only [List.getElem?_cons_succ, List.getElem?_cons_zero,
          Option.some.injEq] at hm
        subst hm
        have hj2 : j % 2 = 0 := by omega
        simp [hj2]
      · simp at hm

/-- The head of the message list survives a completed round. -/
theorem head?_appendRound (ms : List Message) (bs : List Block)
    (rs : List ToolResult) (m : Message) (h : ms.head? = some m) :
    (appendRound ms bs rs).head? = some m := by
  cases ms with
  | nil => simp at h
  | cons x xs => simp_all [appendRound]

/-- Claim C9: the message list passed to every model call of a run starts
with a user turn holding the original query, strictly alternates
user/assistant roles, ends with a user turn, and — each completed tool
round appending exactly two turns — has exactly 2i+1 turns at the
(i+1)-st model call. -/
theorem C9_message_list_invariant (query : String) (hist : Option String)
    (tools : Option (List ToolSpec)) (tmo : Option ExecTool)
    (client : Nat → Response) (i : Nat) (c : ApiCall)
    (hc : (generate_response query hist tools tmo client).calls[i]? = some c) :
    c.messages.length = 2 * i + 1 ∧
    c.messages.head? = some ⟨Role.user, MsgContent.text query⟩ ∧
    rolesAlternate c.messages ∧
    (c.messages.getLast?).map Message.role = some Role.user := by
  have hc' : (genLoop client (systemContentOf hist) (toolsTruthy tools) tmo 0
      [⟨Role.user, MsgContent.text query⟩] MAX_TOOL_ROUNDS).calls[i]? =
        some c := hc
  have hlen0 := genLoop_msglen client (systemContentOf hist)
    (toolsTruthy tools) tmo MAX_TOOL_ROUNDS 0
    [⟨Role.user, MsgContent.text query⟩] i c hc'
  simp only [List.length_cons, List.length_nil] at hlen0
  have hlen : c.messages.length = 2 * i + 1 := by omega
  have hmem : c ∈ (genLoop client (systemContentOf hist) (toolsTruthy tools)
      tmo 0 [⟨Role.user, MsgContent.text query⟩] MAX_TOOL_ROUNDS).calls :=
    List.getElem?_mem hc'
  have hP := genLoop_pred client (systemContentOf hist) (toolsTruthy tools)
    tmo
    (fun ms => ms.head? = some ⟨Role.user, MsgContent.text query⟩ ∧
      rolesAlternate ms ∧ ms.length % 2 = 1)
    (by
      intro ms bs rs hPm
      refine ⟨head?_appendRound ms bs rs _ hPm.1,
        rolesAlternate_appendRound ms bs rs hPm.2.1 hPm.2.2, ?_⟩
      simp only [appendRound, List.length_append, List.length_cons,
        List.length_nil]
      omega)
    MAX_TOOL_ROUNDS 0 [⟨Role.user, MsgContent.text query⟩]
    ⟨rfl, rolesAlternate_singleton _ rfl, by simp⟩ c hmem
  refine ⟨hlen, hP.1, hP.2.1, ?_⟩
  have hlt : 2 * i < c.messages.length := by omega
  obtain ⟨m, hm⟩ : ∃ m, c.messages[2 * i]? = some m :=
    ⟨_, List.getElem?_eq_getElem hlt⟩
  have hrole := hP.2.1 (2 * i) m hm
  simp only [Nat.mul_mod_right, if_pos rfl] at hrole
  rw [List.getLast?_eq_getElem?, hlen]
  simp only [Nat.add_sub_cancel, hm]
  simp [hrole]

/-- Witness for C9 at the first model call of a no-tool run. -/
theorem C9_message_list_invariant_witness :
    ((generate_response "What is MCP?" none none none clientTextF).calls[0]? =
      some ⟨[⟨Role.user, MsgContent.text "What is MCP?"⟩], SYSTEM_PROMPT,
        false⟩) ∧
    ([⟨Role.user, MsgContent.text "What is MCP?"⟩] : List Message).length =
      2 * 0 + 1 ∧
    rolesAlternate [⟨Role.user, MsgContent.text "What is MCP?"⟩] := by
  have hc : (generate_response "What is MCP?" none none none
      clientTextF).calls[0]? = some ⟨[⟨Role.user,
        MsgContent.text "What is MCP?"⟩], SYSTEM_PROMPT, false⟩ := rfl
  have h := C9_message_list_invariant "What is MCP?" none none none
    clientTextF 0 _ hc
  exact ⟨hc, h.1, h.2.2.1⟩

/-- Claim C10: an empty-string conversation history behaves exactly like
an absent one: the whole run is unchanged, and the system text sent to the
model is the bare system prompt on every call (the "Previous
conversation:" section is appended only for a non-empty history). -/
theorem C10_empty_history (query : String) (tools : Option (List ToolSpec))
    (tmo : Option ExecTool) (client : Nat → Response) :
    generate_response query (some "") tools tmo client =
      generate_response query none tools tmo client ∧
    systemContentOf (some "") = SYSTEM_PROMPT ∧
    (∀ c ∈ (generate_response query (some "") tools tmo client).calls,
      c.system = SYSTEM_PROMPT) := by
  refine ⟨rfl, rfl, ?_⟩
  intro c hc
  exact genLoop_system client (systemContentOf (some ""))
    (toolsTruthy tools) tmo MAX_TOOL_ROUNDS 0
    [⟨Role.user, MsgContent.text query⟩] c hc

/-- Witness for C10: the single call of an empty-history, no-tool run
carries the bare system prompt. -/
theorem C10_empty_history_witness :
    ((⟨[⟨Role.user, MsgContent.text "q"⟩], SYSTEM_PROMPT, false⟩ : ApiCall) ∈
      (generate_response "q" (some "") none none clientTextF).calls) ∧
    (⟨[⟨Role.user, MsgContent.text "q"⟩], SYSTEM_PROMPT, false⟩ :
      ApiCall).system = SYSTEM_PROMPT := by
  have hmem : (⟨[⟨Role.user, MsgContent.text "q"⟩], SYSTEM_PROMPT, false⟩ :
      ApiCall) ∈
      (generate_response "q" (some "") none none clientTextF).calls := by
    rw [show (generate_response "q" (some "") none none clientTextF).calls =
      [⟨[⟨Role.user, MsgContent.text "q"⟩], SYSTEM_PROMPT, false⟩] from rfl]
    exact List.mem_singleton.mpr rfl
  exact ⟨hmem, (C10_empty_history "q" none none clientTextF).2.2 _ hmem⟩

end RagChatbot
